import Mathlib

/-!
Verification development for the personal-assistant backend (src/main.py).

The development shallowly embeds the intent classifier (`parse_intent`,
`normalize`, the alias tables) and the device-action dispatch queue
(`create_interaction`, `get_next_action`, `complete_action`) as executable
Lean functions, and settles the frozen claims about them.

Modelling conventions:
- Python strings are Lean `String`s; `str.lower` / `str.split` / substring
  tests (`in`) / `startswith` are re-implemented on `List Char` below,
  restricted to ASCII (all alias-table entries and trigger phrases are ASCII).
- The MongoDB collection behind the queue is modelled as a `List` of records
  in insertion order: `insert` appends, `find_one` returns the first match in
  list order, `update_one` updates the first match.  The `uuid4` identifier
  stream and Mongo's internal `_id` assignment are both modelled by a single
  fresh-`Nat` counter, and `datetime.now` by a logical clock.
- The opaque `result` payload (`Dict[str, Any]`) is modelled as an optional
  string; the numeric `value` payload as an optional `Nat` (the code only ever
  produces a non-negative integer, from the `(\d+)%` regex).
-/

namespace Backend

/-! ## Python string primitives -/

/-- Python `str.split()` whitespace (ASCII part). -/
def pyIsSpace (c : Char) : Bool :=
  c = ' ' || c = '\t' || c = '\n' || c = '\r' || c = '\x0b' || c = '\x0c'

/-- Python `s.startswith(p)` on character lists: `listBeginsWith s p`. -/
def listBeginsWith : List Char → List Char → Bool
  | _, [] => true
  | [], _ :: _ => false
  | c :: s, d :: p => c = d && listBeginsWith s p

/-- Python `pat in s` (substring containment) on lists: `subIn pat s`. -/
def subIn (pat : List Char) : List Char → Bool
  | [] => pat.isEmpty
  | c :: s => listBeginsWith (c :: s) pat || subIn pat s

/-- Python `t.startswith(p)` on strings. -/
def pyStartswith (t p : String) : Bool :=
  listBeginsWith t.toList p.toList

/-- Python `p in t` (substring) on strings. -/
def pyIn (p t : String) : Bool :=
  subIn p.toList t.toList

/-- Words of a string: split on whitespace runs, dropping empty pieces,
exactly like Python `str.split()` with no arguments. -/
def splitWordsAux : List Char → List Char → List (List Char)
  | [], acc => if acc.isEmpty then [] else [acc.reverse]
  | c :: s, acc =>
    if pyIsSpace c then
      if acc.isEmpty then splitWordsAux s [] else acc.reverse :: splitWordsAux s []
    else splitWordsAux s (c :: acc)

/-- Function `normalize` from src/main.py line 106:
`" ".join(text.lower().strip().split())`.  The `strip()` is absorbed by
`split()` (Python `split()` with no arguments already discards leading and
trailing whitespace). -/
def normalize (text : String) : String :=
  String.mk (List.intercalate [' '] (splitWordsAux (text.toList.map Char.toLower) []))

/-- Everything after the first ASCII space: Python `t.split(" ", 1)[1]`.
Total here (returns `""` when no space occurs); the single call site in
`parse_intent` is guarded by a prefix test that guarantees a space. -/
def afterFirstSpace : List Char → List Char
  | [] => []
  | c :: s => if c = ' ' then s else afterFirstSpace s

def strAfterFirstSpace (t : String) : String :=
  String.mk (afterFirstSpace t.toList)

/-- Digits of the regex group `(\d+)` read as a number (Python `int(...)`). -/
def digitsToNat (l : List Char) : Nat :=
  l.foldl (fun n c => 10 * n + (c.toNat - 48)) 0

/-- Python `re.search(r"(\d+)%", t)`: the leftmost maximal ASCII digit run that is
immediately followed by `%`, as a number; `none` when no such run exists. -/
def extractPercent : List Char → Option Nat
  | [] => none
  | c :: s =>
    if c.isDigit then
      match (c :: s).dropWhile Char.isDigit with
      | '%' :: _ => some (digitsToNat ((c :: s).takeWhile Char.isDigit))
      | _ => extractPercent s
    else extractPercent s

/-! ## Intent model and alias tables (src/main.py lines 30-103) -/

inductive IntentType where
  | open_app
  | toggle_setting
  | adjust_setting
  | unknown
deriving DecidableEq, Repr

/-- The pydantic `Intent` model (src/main.py lines 30-40). -/
structure Intent where
  type : IntentType := .unknown
  target : Option String := none
  action : Option String := none
  value : Option Nat := none
  raw_text : Option String := none
deriving DecidableEq, Repr

/-- Alias table `COMMON_APPS` (src/main.py lines 77-87), in declaration order. -/
def COMMON_APPS : List (String × List String) :=
  [("whatsapp", ["whatsapp", "whats app"]),
   ("instagram", ["instagram", "insta"]),
   ("youtube", ["youtube", "yt"]),
   ("twitter", ["twitter", "x"]),
   ("facebook", ["facebook", "fb"]),
   ("camera", ["camera"]),
   ("settings", ["settings"]),
   ("chrome", ["chrome", "browser"]),
   ("gmail", ["gmail", "mail"])]

/-- Alias table `SETTINGS` (src/main.py lines 89-98), in declaration order. -/
def SETTINGS : List (String × List String) :=
  [("wifi", ["wi-fi", "wifi"]),
   ("bluetooth", ["bluetooth"]),
   ("data", ["mobile data", "data", "cellular"]),
   ("flashlight", ["flashlight", "torch"]),
   ("airplane", ["airplane", "flight mode"]),
   ("dnd", ["do not disturb", "dnd"]),
   ("location", ["location", "gps"]),
   ("hotspot", ["hotspot", "tethering"])]

/-- Alias table `ADJUSTABLES` (src/main.py lines 100-103). -/
def ADJUSTABLES : List (String × List String) :=
  [("volume", ["volume", "sound"]),
   ("brightness", ["brightness", "display"])]

/-- Tier-1 alias scan (src/main.py lines 118-119): first app key whose alias
list contains `app_name` exactly, or whose key is a substring of `app_name`. -/
def findApp (app_name : String) : List (String × List String) → Option String
  | [] => none
  | kv :: rest =>
    if kv.2.contains app_name || pyIn kv.1 app_name then some kv.1
    else findApp app_name rest

/-- Setting scan of tiers 2-4 (src/main.py lines 132-133, 140-141, 156-157):
first key any of whose aliases occurs as a substring of `t`. -/
def findByAlias (t : String) : List (String × List String) → Option String
  | [] => none
  | kv :: rest =>
    if kv.2.any (fun a => pyIn a t) then some kv.1
    else findByAlias t rest

def ON_TRIGGERS : List String := ["turn on", "enable", "switch on"]
def OFF_TRIGGERS : List String := ["turn off", "disable", "switch off"]
def ADJUST_TRIGGERS : List String :=
  ["increase", "turn up", "raise", "decrease", "turn down", "lower", "set "]
def INC_TRIGGERS : List String := ["increase", "turn up", "raise"]
def DEC_TRIGGERS : List String := ["decrease", "turn down", "lower"]

/-- The `Intent(type="unknown", raw_text=text)` base record of src/main.py
line 112, also the fallback result of line 171. -/
def unknownIntent (text : String) : Intent :=
  { type := .unknown, raw_text := some text }

/-- Tier 1 (src/main.py lines 115-128): open/launch prefix. -/
def openTier (text t : String) : Option Intent :=
  if pyStartswith t "open " || pyStartswith t "launch " then
    let app_name := strAfterFirstSpace t
    match findApp app_name COMMON_APPS with
    | some key =>
        some { type := .open_app, target := some key, action := some "open",
               raw_text := some text }
    | none =>
        some { type := .open_app, target := some app_name, action := some "open",
               raw_text := some text }
  else none

/-- Tier 2 (src/main.py lines 131-137): toggle a setting on. -/
def toggleOnTier (text t : String) : Option Intent :=
  if ON_TRIGGERS.any (fun w => pyIn w t) then
    (findByAlias t SETTINGS).map (fun key =>
      { type := .toggle_setting, target := some key, action := some "on",
        raw_text := some text })
  else none

/-- Tier 3 (src/main.py lines 139-145): toggle a setting off. -/
def toggleOffTier (text t : String) : Option Intent :=
  if OFF_TRIGGERS.any (fun w => pyIn w t) then
    (findByAlias t SETTINGS).map (fun key =>
      { type := .toggle_setting, target := some key, action := some "off",
        raw_text := some text })
  else none

/-- Tier 4 plus the unknown fallback (src/main.py lines 148-171). -/
def adjustTier (text t : String) : Intent :=
  if ADJUST_TRIGGERS.any (fun w => pyIn w t) then
    let action : Option String :=
      if INC_TRIGGERS.any (fun w => pyIn w t) then some "increase"
      else if DEC_TRIGGERS.any (fun w => pyIn w t) then some "decrease"
      else if pyStartswith t "set " then some "set"
      else none
    match findByAlias t ADJUSTABLES with
    | some key =>
        { type := .adjust_setting, target := some key, action := action,
          value := extractPercent t.toList, raw_text := some text }
    | none => unknownIntent text
  else unknownIntent text

/-- Function `parse_intent` (src/main.py lines 110-171): ordered first-match-wins
cascade over the four tiers.  Each tier of the source returns from inside its
`if` block, so the cascade is a faithful rendering. -/
def parse_intent (text : String) : Intent :=
  let t := normalize text
  match openTier text t with
  | some i => i
  | none =>
    match toggleOnTier text t with
    | some i => i
    | none =>
      match toggleOffTier text t with
      | some i => i
      | none => adjustTier text t

/-! ## Device-action queue model (src/main.py lines 63-71, 220-293) -/

inductive Status where
  | pending
  | reserved
  | completed
  | failed
deriving DecidableEq, Repr

inductive Kind where
  | open_app
  | toggle
  | adjust
deriving DecidableEq, Repr

/-- A stored `deviceaction` document: the pydantic `DeviceAction` model
(src/main.py lines 63-71) as persisted by `model_dump()`, together with the
store-assigned internal identity (`_id`, here `mongoId`) and the
`updated_at` field the two update endpoints `$set`.  The `uuid4` stream that
mints `id` and the store's `_id` assignment are both modelled by the
enclosing state's single fresh counter. -/
structure StoredAction where
  id : Nat
  mongoId : Nat
  kind : Kind
  target : String
  action : Option String := none
  value : Option Nat := none
  status : Status := .pending
  device_id : Option String := none
  result : Option String := none
  updated_at : Option Nat := none
deriving DecidableEq, Repr

/-- The `Interaction` request model (src/main.py lines 43-46). -/
structure Interaction where
  role : String
  text : String
  intent : Option Intent := none
deriving DecidableEq, Repr

/-- Backend state: the two collections touched by the endpoints under study,
in insertion order, plus the fresh-identifier counter (modelling `uuid4` and
Mongo `_id` assignment) and a logical clock (modelling `datetime.now`). -/
structure QueueState where
  interactions : List Interaction := []
  store : List StoredAction := []
  fresh : Nat := 0
  now : Nat := 0
deriving DecidableEq, Repr

/-- Mongo `update_one`: apply `f` to the first record satisfying `p`,
leave everything else unchanged. -/
def updateFirst (p : StoredAction → Bool) (f : StoredAction → StoredAction) :
    List StoredAction → List StoredAction
  | [] => []
  | r :: rest => if p r then f r :: rest else r :: updateFirst p f rest

/-- The `{"status": "pending"}` filter of src/main.py line 261. -/
def pendingP (r : StoredAction) : Bool :=
  decide (r.status = Status.pending)

/-- Mongo read `db["deviceaction"].find_one({"status": "pending"})`
(src/main.py line 261): first pending record in natural (insertion) order. -/
def findOnePending (store : List StoredAction) : Option StoredAction :=
  store.find? pendingP

/-- The `update_one({"_id": ...}, {"$set": {"status": "reserved", ...}})` of
src/main.py line 264. -/
def reserveOne (store : List StoredAction) (mid : Nat) (dev : Option String)
    (now : Nat) : List StoredAction :=
  updateFirst (fun r => decide (r.mongoId = mid))
    (fun r => { r with status := .reserved, device_id := dev, updated_at := some now })
    store

/-- State effect of the write half of `get_next_action`. -/
def claimWriteState (st : QueueState) (p : StoredAction) (dev : Option String) :
    QueueState :=
  { st with store := reserveOne st.store p.mongoId dev st.now, now := st.now + 1 }

/-- The HTTP response body of `get_next_action` (src/main.py lines 267-275):
a `DeviceAction` built from the fetched pending document with
`status="reserved"` and the caller's `device_id`; `result` keeps its
pydantic default `None`. -/
structure ActionResponse where
  id : Nat
  kind : Kind
  target : String
  action : Option String
  value : Option Nat
  status : Status
  device_id : Option String
  result : Option String := none
deriving DecidableEq, Repr

def claimResponse (p : StoredAction) (dev : Option String) : ActionResponse :=
  { id := p.id, kind := p.kind, target := p.target, action := p.action,
    value := p.value, status := .reserved, device_id := dev }

/-- Endpoint `GET /api/actions/next` (src/main.py lines 258-275): a separate
`find_one` on `status=pending` followed by a separate `update_one` on the
found document's `_id` — the naive read-then-write the source itself flags
with the comment "naive: just return the first pending". -/
def get_next_action (st : QueueState) (dev : Option String) :
    Option ActionResponse × QueueState :=
  match findOnePending st.store with
  | none => (none, st)
  | some p => (some (claimResponse p dev), claimWriteState st p dev)

/-- The `status` field of `CompleteActionRequest`
(src/main.py lines 278-280). -/
inductive TermStatus where
  | completed
  | failed
deriving DecidableEq, Repr

def termToStatus : TermStatus → Status
  | .completed => .completed
  | .failed => .failed

inductive CompleteResult where
  | ok
  | notFound
deriving DecidableEq, Repr

/-- Endpoint `POST /api/actions/{action_id}/complete` (src/main.py lines 283-293):
`update_one({"id": action_id}, {"$set": {"status": ..., "result": ...,
"updated_at": ...}})`; HTTP 404 when `matched_count == 0`, else `ok`. -/
def complete_action (st : QueueState) (action_id : Nat) (stt : TermStatus)
    (result : Option String) : CompleteResult × QueueState :=
  if st.store.any (fun r => decide (r.id = action_id)) then
    (.ok,
     { st with
       store := updateFirst (fun r => decide (r.id = action_id))
         (fun r => { r with status := termToStatus stt, result := result,
                            updated_at := some st.now }) st.store,
       now := st.now + 1 })
  else (.notFound, st)

/-- Endpoint `POST /api/interactions` (src/main.py lines 220-233): persist the
interaction, then, when the supplied intent is actionable, enqueue one
`DeviceAction` whose `id` is freshly minted and whose `status` defaults to
`pending`. -/
def create_interaction (st : QueueState) (item : Interaction) : QueueState :=
  let st1 := { st with interactions := st.interactions ++ [item] }
  match item.intent with
  | none => st1
  | some intent =>
    if intent.type = IntentType.open_app ∨ intent.type = IntentType.toggle_setting
        ∨ intent.type = IntentType.adjust_setting then
      let action : StoredAction :=
        if intent.type = IntentType.open_app then
          { id := st1.fresh, mongoId := st1.fresh, kind := Kind.open_app,
            target := intent.target.getD "", action := some "open" }
        else if intent.type = IntentType.toggle_setting then
          { id := st1.fresh, mongoId := st1.fresh, kind := Kind.toggle,
            target := intent.target.getD "", action := intent.action }
        else
          { id := st1.fresh, mongoId := st1.fresh, kind := Kind.adjust,
            target := intent.target.getD "", action := intent.action,
            value := intent.value }
      { st1 with store := st1.store ++ [action], fresh := st1.fresh + 1 }
    else st1

/-! ## Interleaving semantics for concurrent `claimNext` callers

`get_next_action` is, by its definition above, the sequential composition of
two storage operations: the read `findOnePending` and the write
`claimWriteState`.  Under concurrent requests the HTTP layer may interleave
these two halves arbitrarily across callers; each storage primitive itself is
atomic.  A caller is a `device_id` plus a phase: not yet started, holding the
result of its read, or finished with its HTTP response. -/

inductive Phase where
  | start
  | readDone (r : Option StoredAction)
  | answered (ret : Option ActionResponse)
deriving DecidableEq, Repr

structure CConfig where
  qs : QueueState
  callers : List (Option String × Phase)
deriving DecidableEq, Repr

/-- One atomic step of one caller executing `get_next_action`:
`read` performs the `find_one` of src/main.py line 261, `writeHit` the
`update_one` of line 264 followed by building the line 267-275 response, and
`writeMiss` the `return None` of line 263. -/
inductive CStep : CConfig → CConfig → Prop where
  | read (cfg : CConfig) (i : Nat) (dev : Option String)
      (h : cfg.callers.get? i = some (dev, Phase.start)) :
      CStep cfg
        { cfg with
          callers := cfg.callers.set i (dev, Phase.readDone (findOnePending cfg.qs.store)) }
  | writeHit (cfg : CConfig) (i : Nat) (dev : Option String) (p : StoredAction)
      (h : cfg.callers.get? i = some (dev, Phase.readDone (some p))) :
      CStep cfg
        { qs := claimWriteState cfg.qs p dev,
          callers := cfg.callers.set i (dev, Phase.answered (some (claimResponse p dev))) }
  | writeMiss (cfg : CConfig) (i : Nat) (dev : Option String)
      (h : cfg.callers.get? i = some (dev, Phase.readDone none)) :
      CStep cfg { cfg with callers := cfg.callers.set i (dev, Phase.answered none) }

/-- The single pending record of the race scenario. -/
def raceRec : StoredAction :=
  { id := 0, mongoId := 0, kind := Kind.toggle, target := "wifi",
    action := some "on", status := Status.pending }

/-- Initial configuration: one pending record, two callers about to poll. -/
def raceCfg0 : CConfig :=
  { qs := { store := [raceRec], fresh := 1 },
    callers := [(some "devA", Phase.start), (some "devB", Phase.start)] }

/-- Final configuration of the interleaving read-read-write-write. -/
def raceCfg4 : CConfig :=
  { qs := { store := [{ raceRec with
                        status := Status.reserved,
                        device_id := some "devB",
                        updated_at := some 1 }],
            fresh := 1, now := 2 },
    callers := [(some "devA", Phase.answered (some (claimResponse raceRec (some "devA")))),
                (some "devB", Phase.answered (some (claimResponse raceRec (some "devB"))))] }

/-- The fields of a stored record that `claimNext` must leave unchanged:
everything except `status`, `device_id` and `updated_at`. -/
def claimFrame (r : StoredAction) :
    Nat × Kind × String × Option String × Option Nat × Option String :=
  (r.id, r.kind, r.target, r.action, r.value, r.result)

/-- The fields of a stored record that `complete` must leave unchanged:
everything except `status`, `result` and `updated_at`. -/
def completeFrame (r : StoredAction) :
    Nat × Kind × String × Option String × Option Nat × Option String :=
  (r.id, r.kind, r.target, r.action, r.value, r.device_id)

/-! ## Spec-side definition for the action-factory refinement (claim C6) -/

def kindOf : IntentType → Kind
  | .open_app => .open_app
  | .toggle_setting => .toggle
  | .adjust_setting => .adjust
  | .unknown => .open_app

/-- Modelled from the spec (§4.3, amended to the code's behavior): the record
the action factory enqueues for an actionable intent — `status` starts
`pending`, a fresh `id` is minted, `kind` follows the intent type, `target`
is copied with `null` collapsed to `""`, `action` is copied for
toggle/adjust but fixed to `"open"` for `open_app`, and `value` is copied
only for `adjust_setting`.  (`kindOf` is never applied to `unknown`: the
factory enqueues nothing then.) -/
def toActionSpec (st : QueueState) (i : Intent) : StoredAction :=
  { id := st.fresh, mongoId := st.fresh, kind := kindOf i.type,
    target := i.target.getD "",
    action := if i.type = IntentType.open_app then some "open" else i.action,
    value := if i.type = IntentType.adjust_setting then i.value else none }

/-! ## Concrete fixtures used by counterexamples and witnesses -/

/-- The empty backend state. -/
def st0 : QueueState := {}

/-- An already-terminal record: completed, with a stored result. -/
def rcDone : StoredAction :=
  { id := 1, mongoId := 1, kind := Kind.toggle, target := "wifi",
    action := some "on", status := Status.completed,
    device_id := some "devA", result := some "ok", updated_at := some 3 }

def stDone : QueueState := { store := [rcDone], fresh := 2, now := 4 }

/-- A client-supplied actionable intent whose `action`/`value` differ from
what the factory stores. -/
def c6intent : Intent :=
  { type := .open_app, target := some "whatsapp", value := some 5 }

/-- Two pending records, in creation order. -/
def w5a : StoredAction :=
  { id := 1, mongoId := 1, kind := Kind.open_app, target := "camera",
    action := some "open" }
def w5b : StoredAction :=
  { id := 2, mongoId := 2, kind := Kind.toggle, target := "wifi",
    action := some "on" }
def stTwoPending : QueueState := { store := [w5a, w5b], fresh := 3, now := 5 }

/-- A single reserved record awaiting completion. -/
def w7r : StoredAction :=
  { id := 5, mongoId := 5, kind := Kind.adjust, target := "volume",
    action := some "increase", value := some 40, status := Status.reserved,
    device_id := some "dev1", updated_at := some 2 }
def stReserved : QueueState := { store := [w7r], fresh := 6, now := 9 }

/-- A toggle intent with a null target. -/
def nullTargetIntent : Intent := { type := .toggle_setting, action := some "on" }

/-- A well-formed toggle intent (witness input for the factory refinement). -/
def wIntent : Intent :=
  { type := .toggle_setting, target := some "wifi", action := some "on" }

/-! ## Helper lemmas -/

theorem updateFirst_map {β : Type} (p : StoredAction → Bool)
    (f : StoredAction → StoredAction) (g : StoredAction → β)
    (hg : ∀ a, g (f a) = g a) :
    ∀ l : List StoredAction, (updateFirst p f l).map g = l.map g := by
  intro l
  induction l with
  | nil => rfl
  | cons r rest ih => by_cases h : p r <;> simp [updateFirst, h, hg, ih]

theorem find?_eq_filter_head? {α : Type} (p : α → Bool) :
    ∀ l : List α, l.find? p = (l.filter p).head? := by
  intro l
  induction l with
  | nil => rfl
  | cons x xs ih =>
    by_cases h : p x
    · rw [List.find?_cons_of_pos _ h, List.filter_cons_of_pos h]; rfl
    · rw [List.find?_cons_of_neg _ h, List.filter_cons_of_neg h, ih]

theorem updateFirst_find?_eq (q : StoredAction → Bool)
    (f : StoredAction → StoredAction) (hf : ∀ r, q r = true → q (f r) = true) :
    ∀ l p, l.find? q = some p → (updateFirst q f l).find? q = some (f p) := by
  intro l
  induction l with
  | nil => intro p h; simp at h
  | cons x xs ih =>
    intro p h
    by_cases hx : q x
    · rw [List.find?_cons_of_pos _ hx] at h
      have hxp : x = p := by injection h
      subst hxp
      simp only [updateFirst, hx, if_pos]
      rw [List.find?_cons_of_pos _ (hf x hx)]
    · rw [List.find?_cons_of_neg _ hx] at h
      simp only [updateFirst, hx]
      rw [if_neg (by simp [hx]), List.find?_cons_of_neg _ hx]
      exact ih p h

/-- One `claimNext` against a store whose pending records (in insertion
order) are `p :: rest`: the read finds `p`, and after the reservation the
pending records are exactly `rest`. -/
theorem claim_filter_step (dev : Option String) (now : Nat) :
    ∀ l : List StoredAction, (l.map fun r => r.mongoId).Nodup →
      ∀ p rest, l.filter pendingP = p :: rest →
        l.find? pendingP = some p
        ∧ (reserveOne l p.mongoId dev now).filter pendingP = rest := by
  intro l
  induction l with
  | nil => intro _ p rest h; simp at h
  | cons x xs ih =>
    intro hnd p rest h
    rw [List.map_cons, List.nodup_cons] at hnd
    by_cases hx : pendingP x
    · rw [List.filter_cons_of_pos hx] at h
      injection h with h1 h2; subst h1; subst h2
      refine ⟨List.find?_cons_of_pos _ hx, ?_⟩
      show (updateFirst (fun r => decide (r.mongoId = x.mongoId)) _ (x :: xs)).filter pendingP
            = xs.filter pendingP
      rw [updateFirst, if_pos (by simp)]
      rw [List.filter_cons_of_neg (by simp [pendingP])]
    · rw [List.filter_cons_of_neg hx] at h
      obtain ⟨hx_not_mem, hnd'⟩ := hnd
      obtain ⟨hfind, hres⟩ := ih hnd' p rest h
      have hpmem : p ∈ xs :=
        List.mem_of_mem_filter (by rw [h]; exact List.mem_cons_self p rest)
      have hne : x.mongoId ≠ p.mongoId := by
        intro e; exact hx_not_mem (e ▸ List.mem_map_of_mem (fun r => r.mongoId) hpmem)
      refine ⟨by rw [List.find?_cons_of_neg _ hx]; exact hfind, ?_⟩
      show (updateFirst (fun r => decide (r.mongoId = p.mongoId)) _ (x :: xs)).filter pendingP
            = rest
      rw [updateFirst, if_neg (by simp [hne]), List.filter_cons_of_neg hx]
      exact hres

/-! ## Claim theorems -/

/-- Claim C1 (code_bug): the pending-to-reserved transition of
`get_next_action` is NOT a single atomic conditional update — it is a
separate `find_one` followed by a separate `update_one`, and under the
interleaving read-read-write-write two concurrent `claimNext` callers
against a queue holding exactly one pending record BOTH return that record
with `status=reserved`, for distinct device ids.  This refutes the claimed
property "exactly one call returns that record ... no record is ever
observed reserved by two distinct callers". -/
theorem claimNext_race_double_reserve :
    Relation.ReflTransGen CStep raceCfg0 raceCfg4
    ∧ raceCfg4.callers.get? 0
        = some (some "devA", Phase.answered (some (claimResponse raceRec (some "devA"))))
    ∧ raceCfg4.callers.get? 1
        = some (some "devB", Phase.answered (some (claimResponse raceRec (some "devB"))))
    ∧ (claimResponse raceRec (some "devA")).status = Status.reserved
    ∧ (claimResponse raceRec (some "devB")).status = Status.reserved
    ∧ (claimResponse raceRec (some "devA")).id = (claimResponse raceRec (some "devB")).id
    ∧ (some "devA" : Option String) ≠ some "devB" := by
  refine ⟨?_, rfl, rfl, rfl, rfl, rfl, by decide⟩
  refine Relation.ReflTransGen.head (CStep.read raceCfg0 0 (some "devA") rfl) ?_
  refine Relation.ReflTransGen.head (CStep.read _ 1 (some "devB") rfl) ?_
  refine Relation.ReflTransGen.head (CStep.writeHit _ 0 (some "devA") raceRec rfl) ?_
  refine Relation.ReflTransGen.head (CStep.writeHit _ 1 (some "devB") raceRec rfl) ?_
  exact Relation.ReflTransGen.refl

/-- Claim C2 (code_bug): the classifier invariant "type ≠ unknown implies
action is non-null" fails: `parse_intent "please set volume"` enters the
adjust tier through the mid-text substring `"set "`, matches the `volume`
alias, but leaves `action` null because the `"set"` action is only assigned
when the text STARTS with `"set "`. -/
theorem parse_intent_null_action_bug :
    (parse_intent "please set volume").type = IntentType.adjust_setting
    ∧ (parse_intent "please set volume").target = some "volume"
    ∧ (parse_intent "please set volume").action = none := by
  refine ⟨rfl, rfl, rfl⟩

/-- Claim C3 (code_bug): `complete_action` performs an unconditional
`$set` keyed only on the id: a second completion with a CONFLICTING status
on an already-terminal record reports `ok` and silently overwrites the
stored terminal status and result, instead of being reported as an error. -/
theorem complete_action_silent_overwrite :
    rcDone.status = Status.completed
    ∧ (complete_action stDone 1 TermStatus.failed (some "err")).1 = CompleteResult.ok
    ∧ ((complete_action stDone 1 TermStatus.failed (some "err")).2.store.map
        fun r => (r.status, r.result)) = [(Status.failed, some "err")] := by
  refine ⟨rfl, rfl, rfl⟩

/-- Claim C4 counterexample: the claim quantifies over raw inputs, and the
raw input `"open "` does start with `"open "`, yet `parse_intent` returns
`unknown` for it (normalization strips the trailing space, so the tier-1
prefix test sees `"open"`). -/
theorem open_prefix_counterexample :
    pyStartswith "open " "open " = true
    ∧ (parse_intent "open ").type = IntentType.unknown := by
  refine ⟨rfl, rfl⟩

/-- Claim C4 (amended): for every input whose NORMALIZED text starts with
`"open "` or `"launch "`, `parse_intent` returns `open_app` with a non-null
target and action `"open"`; the tier never falls through, and when no known
app matches, the literal remainder is the target verbatim. -/
theorem open_launch_amended (text : String)
    (h : (pyStartswith (normalize text) "open "
        || pyStartswith (normalize text) "launch ") = true) :
    (parse_intent text).type = IntentType.open_app
    ∧ (parse_intent text).target ≠ none
    ∧ (parse_intent text).action = some "open"
    ∧ (findApp (strAfterFirstSpace (normalize text)) COMMON_APPS = none →
        (parse_intent text).target = some (strAfterFirstSpace (normalize text))) := by
  cases hf : findApp (strAfterFirstSpace (normalize text)) COMMON_APPS with
  | none => simp [parse_intent, openTier, h, hf]
  | some key => simp [parse_intent, openTier, h, hf]

/-- Witness for `open_launch_amended` at the spec's own example input. -/
theorem open_launch_amended_witness :
    (pyStartswith (normalize "open foobar") "open "
      || pyStartswith (normalize "open foobar") "launch ") = true
    ∧ ((parse_intent "open foobar").type = IntentType.open_app
        ∧ (parse_intent "open foobar").target ≠ none
        ∧ (parse_intent "open foobar").action = some "open"
        ∧ (findApp (strAfterFirstSpace (normalize "open foobar")) COMMON_APPS = none →
            (parse_intent "open foobar").target
              = some (strAfterFirstSpace (normalize "open foobar")))) :=
  ⟨by decide, open_launch_amended "open foobar" (by decide)⟩

/-- Claim C5: FIFO.  With distinct store identities, `claimNext` returns the
OLDEST pending record (the head of the pending records in insertion order),
afterwards the pending records are exactly the remaining ones in order, and
the store's identity sequence is unchanged — so repeated calls return the
pending records in creation order. -/
theorem claimNext_fifo (st : QueueState) (dev : Option String)
    (hnd : (st.store.map fun r => r.mongoId).Nodup) :
    (st.store.filter pendingP = [] → (get_next_action st dev).1 = none)
    ∧ (∀ p rest, st.store.filter pendingP = p :: rest →
        (get_next_action st dev).1 = some (claimResponse p dev)
        ∧ (get_next_action st dev).2.store.filter pendingP = rest
        ∧ (get_next_action st dev).2.store.map (fun r => r.mongoId)
            = st.store.map fun r => r.mongoId) := by
  constructor
  · intro h
    have hf : findOnePending st.store = none := by
      rw [findOnePending, find?_eq_filter_head?, h]; rfl
    simp [get_next_action, hf]
  · intro p rest h
    obtain ⟨hfind, hres⟩ := claim_filter_step dev st.now st.store hnd p rest h
    have hf : findOnePending st.store = some p := hfind
    simp only [get_next_action, hf]
    refine ⟨by trivial, hres, ?_⟩
    exact updateFirst_map (fun r => decide (r.mongoId = p.mongoId))
      (fun r => { r with status := .reserved, device_id := dev, updated_at := some st.now })
      (fun r => r.mongoId) (fun a => rfl) st.store

/-- Witness for `claimNext_fifo`: two pending records in creation order; the
call returns the older one and leaves the younger one pending. -/
theorem claimNext_fifo_witness :
    (stTwoPending.store.map fun r => r.mongoId).Nodup
    ∧ (get_next_action stTwoPending (some "dev1")).1 = some (claimResponse w5a (some "dev1"))
    ∧ (get_next_action stTwoPending (some "dev1")).2.store.filter pendingP = [w5b] := by
  have h := (claimNext_fifo stTwoPending (some "dev1") (by decide)).2 w5a [w5b] rfl
  exact ⟨by decide, h.1, h.2.1⟩

/-- Claim C6 counterexample: the enqueue step does NOT copy `action` and
`value` verbatim from the intent — for an `open_app` intent with null
`action` and `value = 5`, the stored record has `action = "open"` and
`value = null`. -/
theorem toAction_copy_counterexample :
    c6intent.action = none ∧ c6intent.value = some 5
    ∧ ((create_interaction st0 { role := "user", text := "open whatsapp",
                                 intent := some c6intent }).store.map
        fun r => (r.action, r.value)) = [(some "open", none)] := by
  refine ⟨rfl, rfl, rfl⟩

/-- Claim C6 (amended): the enqueue step produces no record iff the intent
is absent or of type `unknown`; for every other type it appends exactly one
record — with `status=pending` and a freshly minted unique id — given by the
per-type mapping `toActionSpec` (target copied with null collapsed to `""`,
action copied except forced to `"open"` for `open_app`, value copied only
for `adjust_setting`). -/
theorem toAction_amended (st : QueueState) (role text : String) (oi : Option Intent) :
    ((oi = none ∨ ∃ i, oi = some i ∧ i.type = IntentType.unknown) →
      (create_interaction st { role := role, text := text, intent := oi }).store = st.store)
    ∧ (∀ i, oi = some i → i.type ≠ IntentType.unknown →
        (create_interaction st { role := role, text := text, intent := oi }).store
            = st.store ++ [toActionSpec st i]
        ∧ (toActionSpec st i).status = Status.pending
        ∧ ((∀ r ∈ st.store, r.id < st.fresh) →
            ∀ r ∈ st.store, r.id ≠ (toActionSpec st i).id)) := by
  constructor
  · rintro (rfl | ⟨i, rfl, hu⟩)
    · rfl
    · simp [create_interaction, hu]
  · rintro i rfl hne
    refine ⟨?_, rfl, ?_⟩
    · cases hty : i.type with
      | unknown => exact absurd hty hne
      | open_app => simp [create_interaction, toActionSpec, kindOf, hty]
      | toggle_setting => simp [create_interaction, toActionSpec, kindOf, hty]
      | adjust_setting => simp [create_interaction, toActionSpec, kindOf, hty]
    · intro hlt r hr
      exact Nat.ne_of_lt (hlt r hr)

/-- Witness for `toAction_amended` at a concrete toggle intent. -/
theorem toAction_amended_witness :
    (create_interaction st0 { role := "u", text := "t", intent := some wIntent }).store
        = st0.store ++ [toActionSpec st0 wIntent]
    ∧ (toActionSpec st0 wIntent).status = Status.pending
    ∧ ((∀ r ∈ st0.store, r.id < st0.fresh) →
        ∀ r ∈ st0.store, r.id ≠ (toActionSpec st0 wIntent).id) :=
  (toAction_amended st0 "u" "t" (some wIntent)).2 wIntent rfl (by decide)

/-- Claim C7: `complete_action` returns `notFound` (HTTP 404) iff no record
with the given id exists; when the (first) record with that id exists it
returns `ok` and that record afterwards carries the requested terminal
status and result. -/
theorem complete_action_not_found_iff (st : QueueState) (aid : Nat)
    (stt : TermStatus) (res : Option String) :
    ((complete_action st aid stt res).1 = CompleteResult.notFound ↔
        ∀ r ∈ st.store, r.id ≠ aid)
    ∧ (∀ p, st.store.find? (fun r => decide (r.id = aid)) = some p →
        (complete_action st aid stt res).1 = CompleteResult.ok
        ∧ (complete_action st aid stt res).2.store.find? (fun r => decide (r.id = aid))
            = some { p with status := termToStatus stt, result := res,
                            updated_at := some st.now }) := by
  constructor
  · by_cases h : st.store.any (fun r => decide (r.id = aid))
    · simp only [complete_action, h, if_pos]
      simp only [List.any_eq_true, decide_eq_true_eq] at h
      obtain ⟨r, hr, he⟩ := h
      simp only [show (CompleteResult.ok = CompleteResult.notFound) = False by simp]
      exact iff_of_false (by simp) (fun hall => hall r hr he)
    · simp only [complete_action, h, if_neg, Bool.false_eq_true, not_false_eq_true]
      simp only [List.any_eq_true, decide_eq_true_eq, not_exists, not_and] at h
      exact iff_of_true (by trivial) h
  · intro p hp
    have hmem := List.mem_of_find?_eq_some hp
    have hpred := List.find?_some hp
    have hany : st.store.any (fun r => decide (r.id = aid)) = true := by
      rw [List.any_eq_true]; exact ⟨p, hmem, hpred⟩
    refine ⟨by simp [complete_action, hany], ?_⟩
    simp only [complete_action, hany, if_pos]
    exact updateFirst_find?_eq (fun r => decide (r.id = aid))
      (fun r => { r with status := termToStatus stt, result := res,
                         updated_at := some st.now })
      (fun r h => h) st.store p hp

/-- Witness for `complete_action_not_found_iff`: completing the single
reserved record succeeds and stores the terminal status and result. -/
theorem complete_action_not_found_iff_witness :
    (complete_action stReserved 5 TermStatus.completed (some "done")).1 = CompleteResult.ok
    ∧ (complete_action stReserved 5 TermStatus.completed (some "done")).2.store.find?
          (fun r => decide (r.id = 5))
        = some { w7r with status := Status.completed, result := some "done",
                          updated_at := some 9 } :=
  (complete_action_not_found_iff stReserved 5 TermStatus.completed (some "done")).2 w7r rfl

/-- Claim C8 (frame): `claimNext` changes only `status`, `device_id` and the
update timestamp of stored records, and `complete` changes only `status`,
`result` and the update timestamp: the per-record projections below are
invariant under both operations, so `id`, `kind`, `target`, `action` and
`value` are never changed after creation. -/
theorem queue_ops_frame (st : QueueState) (dev : Option String) (aid : Nat)
    (stt : TermStatus) (res : Option String) :
    (get_next_action st dev).2.store.map claimFrame = st.store.map claimFrame
    ∧ (complete_action st aid stt res).2.store.map completeFrame
        = st.store.map completeFrame := by
  constructor
  · cases hf : findOnePending st.store with
    | none => simp [get_next_action, hf]
    | some p =>
      simp only [get_next_action, hf]
      exact updateFirst_map (fun r => decide (r.mongoId = p.mongoId))
        (fun r => { r with status := .reserved, device_id := dev,
                           updated_at := some st.now })
        claimFrame (fun a => rfl) st.store
  · by_cases h : st.store.any (fun r => decide (r.id = aid))
    · simp only [complete_action, h, if_pos]
      exact updateFirst_map (fun r => decide (r.id = aid))
        (fun r => { r with status := termToStatus stt, result := res,
                           updated_at := some st.now })
        completeFrame (fun a => rfl) st.store
    · simp [complete_action, h]

/-- Claim C9: when the normalized text contains a tier-2 or tier-3 trigger
phrase but no setting alias matches (and tier 1 does not apply), the
classifier does not stop at the toggle tiers: the whole classification
equals the adjust-tier computation, i.e. the lower tier is still
evaluated. -/
theorem toggle_fallthrough (text : String)
    (h1 : (pyStartswith (normalize text) "open "
        || pyStartswith (normalize text) "launch ") = false)
    (_h0 : (ON_TRIGGERS.any (fun w => pyIn w (normalize text))
        || OFF_TRIGGERS.any (fun w => pyIn w (normalize text))) = true)
    (h2 : findByAlias (normalize text) SETTINGS = none) :
    parse_intent text = adjustTier text (normalize text) := by
  have hopen : openTier text (normalize text) = none := by
    simp [openTier, h1]
  have hon : toggleOnTier text (normalize text) = none := by
    by_cases ht : ON_TRIGGERS.any (fun w => pyIn w (normalize text)) <;>
      simp [toggleOnTier, ht, h2]
  have hoff : toggleOffTier text (normalize text) = none := by
    by_cases ht : OFF_TRIGGERS.any (fun w => pyIn w (normalize text)) <;>
      simp [toggleOffTier, ht, h2]
  simp [parse_intent, hopen, hon, hoff]

/-- Witness for `toggle_fallthrough`: a tier-2 trigger (`enable`) with no
setting alias falls through and the adjust tier classifies the input. -/
theorem toggle_fallthrough_witness :
    (pyStartswith (normalize "enable louder sound please raise it") "open "
      || pyStartswith (normalize "enable louder sound please raise it") "launch ") = false
    ∧ (ON_TRIGGERS.any (fun w => pyIn w (normalize "enable louder sound please raise it"))
      || OFF_TRIGGERS.any (fun w => pyIn w (normalize "enable louder sound please raise it"))) = true
    ∧ findByAlias (normalize "enable louder sound please raise it") SETTINGS = none
    ∧ parse_intent "enable louder sound please raise it"
        = adjustTier "enable louder sound please raise it"
            (normalize "enable louder sound please raise it") :=
  ⟨by decide, by decide, by decide,
   toggle_fallthrough "enable louder sound please raise it"
     (by decide) (by decide) (by decide)⟩

/-- Claim C10: an actionable intent with a null target is enqueued without
failing, and the stored record's target is the empty string. -/
theorem null_target_enqueued_empty (st : QueueState) (role text : String)
    (i : Intent) (ht : i.target = none) (hne : i.type ≠ IntentType.unknown) :
    ∃ r, (create_interaction st { role := role, text := text, intent := some i }).store
          = st.store ++ [r] ∧ r.target = "" := by
  cases hty : i.type with
  | unknown => exact absurd hty hne
  | open_app =>
    refine ⟨{ id := st.fresh, mongoId := st.fresh, kind := Kind.open_app,
              target := "", action := some "open" }, ?_, rfl⟩
    simp [create_interaction, hty, ht]
  | toggle_setting =>
    refine ⟨{ id := st.fresh, mongoId := st.fresh, kind := Kind.toggle,
              target := "", action := i.action }, ?_, rfl⟩
    simp [create_interaction, hty, ht]
  | adjust_setting =>
    refine ⟨{ id := st.fresh, mongoId := st.fresh, kind := Kind.adjust,
              target := "", action := i.action, value := i.value }, ?_, rfl⟩
    simp [create_interaction, hty, ht]

/-- Witness for `null_target_enqueued_empty`. -/
theorem null_target_enqueued_empty_witness :
    nullTargetIntent.target = none
    ∧ nullTargetIntent.type ≠ IntentType.unknown
    ∧ ∃ r, (create_interaction st0 { role := "user", text := "turn on",
                                     intent := some nullTargetIntent }).store
            = st0.store ++ [r] ∧ r.target = "" :=
  ⟨rfl, by decide,
   null_target_enqueued_empty st0 "user" "turn on" nullTargetIntent rfl (by decide)⟩

end Backend
